import Mathlib

/-!
Shallow embedding of the quiz-generation and format-conversion code of the
repository `cem-vlm-eval-harness` (package `make_data`), together with proofs
of the behavioural claims about it.

Python strings are modelled as Lean `String`s (lists of unicode scalar
values); machine floats produced by `_percent2float` are modelled as exact
rationals; the randomness consumed by `random.sample` and `random.shuffle`
is modelled by explicit index-list oracles, validated exactly where the
library validates its arguments; exceptions are modelled with `Option` /
`Except` / dedicated result types.  Each definition is annotated with the
source location it embeds.
-/

namespace MakeData

/-! ### Python string primitives -/

/-- ASCII decimal digit test; the `\d` class of the `re` module on the ASCII
range (the source data is ASCII/Korean, where unicode digits do not occur). -/
def isAsciiDigit (c : Char) : Bool := decide (48 ≤ c.toNat ∧ c.toNat ≤ 57)

/-- The whitespace set of Python `str.strip()` restricted to the ASCII range. -/
def pyIsSpace (c : Char) : Bool :=
  decide (c = ' ' ∨ c = '\t' ∨ c = '\n' ∨ c = '\r' ∨ c = '\x0b' ∨ c = '\x0c')

/-- Numeric value of an ASCII digit character. -/
def digitVal (c : Char) : Nat := c.toNat - 48

/-- Python `pat in s` (substring containment), scanning left to right. -/
def listContains (s pat : List Char) : Bool :=
  if pat.isPrefixOf s then true
  else
    match s with
    | [] => false
    | _ :: t => listContains t pat

/-- Python `pat in s` on `String`s. -/
def strContains (s pat : String) : Bool := listContains s.data pat.data

/-- Python `s.replace(pat, rep)`: replace every non-overlapping occurrence of
`pat`, scanning left to right.  Fuel-indexed so that the recursion is
structural; one unit of fuel is spent per character position, so fuel equal
to the length of `s` always suffices.  (Callers in this code base never pass
an empty `pat`; for `pat = []` this model leaves `s` unchanged.) -/
def pyReplaceFuel (pat rep : List Char) : Nat → List Char → List Char
  | _, [] => []
  | 0, c :: t => c :: t
  | f + 1, c :: t =>
    if pat ≠ [] ∧ pat.isPrefixOf (c :: t) then
      rep ++ pyReplaceFuel pat rep f ((c :: t).drop pat.length)
    else
      c :: pyReplaceFuel pat rep f t

/-- Python `s.replace(pat, rep)` on `List Char`. -/
def pyReplaceL (s pat rep : List Char) : List Char := pyReplaceFuel pat rep s.length s

/-- Python `s.replace(pat, rep)` on `String`s. -/
def pyReplace (s pat rep : String) : String := ⟨pyReplaceL s.data pat.data rep.data⟩

/-- Python `s.strip()` on `List Char`: drop whitespace from both ends. -/
def pyStripL (s : List Char) : List Char :=
  ((s.dropWhile pyIsSpace).reverse.dropWhile pyIsSpace).reverse

/-- Python `s.strip()`. -/
def pyStrip (s : String) : String := ⟨pyStripL s.data⟩

/-- Python `s.lower()` (ASCII case mapping; the Korean text in the data has
no case, so the ASCII mapping is exact on the inputs of this program). -/
def pyLower (s : String) : String := ⟨s.data.map Char.toLower⟩

/-! ### QuizGenerator (standard mode), src/make_data/quiz_generator.py -/

/-- Embeds `labels = [chr(65 + i) for i in range(len(options))]`
(quiz_generator.py line 159 and line 374). -/
def labelsFor (k : Nat) : List Char := (List.range k).map (fun i => Char.ofNat (65 + i))

/-- Embeds `[label for label, option in labeled_options.items() if option == correct][0]`
(quiz_generator.py lines 162 and 378), returning `none` where Python raises
`IndexError` on the empty list. -/
def correctLabel (labeled : List (Char × String)) (correct : String) : Option Char :=
  ((labeled.filter (fun p => p.2 == correct)).map (fun p => p.1)).head?

/-- Embeds `all_korean_words = [pair[1] for pair in data if pair[1] != correct_answer]`
(quiz_generator.py line 189): the eligible distractor pool. -/
def distractorPool (data : List (String × String)) (correct : String) : List String :=
  (data.filter (fun p => p.2 != correct)).map (fun p => p.2)

/-- Validation of the index oracle that models the random choices of
`random.sample`: a sample is any choice of `k` distinct valid positions; an
oracle that is not such a choice falls back to the first `k` positions
(also a legitimate sample). -/
def selectIdxs (len k : Nat) (idxs : List Nat) : List Nat :=
  if idxs.Nodup ∧ idxs.length = k ∧ ∀ i ∈ idxs, i < len then idxs else List.range k

/-- Embeds `random.sample(population, k)` on a string population: raises `ValueError`
(`none`) exactly when `k` exceeds the population size, and otherwise returns
the elements at `k` distinct positions, in the order chosen by `idxs`. -/
def randomSample (pool : List String) (k : Nat) (idxs : List Nat) : Option (List String) :=
  if k ≤ pool.length then
    some ((selectIdxs pool.length k idxs).map (fun i => pool.getD i ""))
  else none

/-- Embeds `QuizGenerator._get_distractors` (quiz_generator.py lines 177-190):
filter out the correct answer, then `random.sample` the requested count. -/
def get_distractors (data : List (String × String)) (correct : String) (n : Nat)
    (idxs : List Nat) : Option (List String) :=
  randomSample (distractorPool data correct) n idxs

/-- Embeds `random.shuffle(options)` (quiz_generator.py line 157): reorder by a
permutation oracle `ord`; an oracle that is not a permutation of the valid
positions leaves the list unchanged (the identity is also a legal shuffle). -/
def randomShuffle (l : List String) (ord : List Nat) : List String :=
  if ord.Nodup ∧ ord.length = l.length ∧ ∀ i ∈ ord, i < l.length then
    ord.map (fun i => l.getD i "")
  else l

/-- The `options` sub-dictionary of a quiz record. -/
structure OptionsSet where
  text : List String
  label : List Char
deriving DecidableEq, Repr

/-- The `answer` sub-dictionary of a quiz record. -/
structure AnswerKeyed where
  text : String
  key : Char
deriving DecidableEq, Repr

/-- The record returned by `QuizGenerator.generate_quiz` (lines 165-175). -/
structure QuizRecord where
  question : String
  options : OptionsSet
  answer : AnswerKeyed
deriving DecidableEq, Repr

/-- The exceptions `generate_quiz` can propagate: `ValueError` from
`random.sample` (insufficient pool) and `IndexError` from the answer-label
lookup. -/
inductive QuizError where
  | insufficientPool
  | answerNotFound
deriving DecidableEq, Repr

/-- Embeds `cls.load_template()['question'].replace(str(cls._change_keyword), str(loanword))`
(quiz_generator.py line 163), with the template text supplied by the caller. -/
def questionFromTemplate (template changeKeyword loanword : String) : String :=
  pyReplace template changeKeyword loanword

/-- Deterministic tail of `QuizGenerator.generate_quiz` (lines 159-175), applied
to the already-shuffled option list. -/
def generateQuizWith (template changeKeyword loanword correct : String)
    (opts : List String) : Except QuizError QuizRecord :=
  let labels := labelsFor opts.length
  match correctLabel (labels.zip opts) correct with
  | none => .error .answerNotFound
  | some key =>
    .ok { question := questionFromTemplate template changeKeyword loanword
          options := { text := opts, label := labels }
          answer := { text := correct, key := key } }

/-- Embeds `QuizGenerator.generate_quiz` (quiz_generator.py lines 131-175): draw the
distractors, append the correct answer, shuffle, label, and locate the key.
`idxs` and `ord` are the oracles for `random.sample` and `random.shuffle`. -/
def generate_quiz (template changeKeyword loanword correct : String)
    (data : List (String × String)) (n : Nat) (idxs ord : List Nat) :
    Except QuizError QuizRecord :=
  match get_distractors data correct n idxs with
  | none => .error .insufficientPool
  | some ds => generateQuizWith template changeKeyword loanword correct
      (randomShuffle (ds ++ [correct]) ord)

/-! ### VisionQuizGenerator, src/make_data/quiz_generator.py lines 235-568 -/

/-- The boilerplate sentence removed by `_split_queries` (line 467). -/
def BOILERPLATE : String :=
  "해설이 아직 작성되지 않았습니다.해설을 알고 계시다면 오른쪽 해설추가 기능을 이용하여 해설을 작성하여 다른분들과 함께 해설을 나누었으면 합니다.로그인 후 오류 신고 및 해설 작성 하시면 포인트가 제공됩니다.[포인트 모으기 및 사용법]"

/-- The trailing fragment also stripped from raw answers (line 371). -/
def POINT_PHRASE : String := "[포인트 모으기 및 사용법]"

/-- The explanation boilerplate marker (line 403). -/
def EXPL_MARKER : String := "<문제 해설>"

/-- One leftmost-match step of the regex `\d+\.\n`: at the current position,
greedily take the maximal digit run and require it to be followed by a dot
and a newline.  (Since the character after the maximal run is not a digit,
the regex engine's backtracking over shorter runs can never succeed when the
maximal run fails, so matching only the maximal run is exact.)  Fuel-indexed
structural recursion; fuel equal to the length of the input suffices. -/
def reSplitFuel : Nat → List Char → List (List Char)
  | _, [] => [[]]
  | 0, s => [s]
  | f + 1, c :: t =>
    let run := (c :: t).takeWhile isAsciiDigit
    if run ≠ [] ∧ ((c :: t).drop run.length).take 2 = ['.', '\n'] then
      [] :: reSplitFuel f ((c :: t).drop (run.length + 2))
    else
      match reSplitFuel f t with
      | [] => [[c]]
      | seg :: segs => (c :: seg) :: segs

/-- Embeds `re.split(r'\d+\.\n', s)`: the segments between leftmost non-overlapping
matches of the enumerant marker. -/
def reSplitNumDotNl (s : List Char) : List (List Char) := reSplitFuel s.length s

/-- Embeds `VisionQuizGenerator._split_queries` (quiz_generator.py lines 456-468):
remove the boilerplate, split on `\d+\.\n`, strip each segment, and keep the
segments whose stripped form is non-empty. -/
def split_queries (queries : String) : List String :=
  ((reSplitNumDotNl (pyReplace queries BOILERPLATE "").data).map
      (fun l => pyStrip ⟨l⟩)).filter (fun x => x ≠ "")

/-- Leftmost maximal digit run of a string: the match of `re.search(r'\d+', s)`. -/
def firstDigitRun : List Char → Option (List Char)
  | [] => none
  | c :: t =>
    if isAsciiDigit c then some ((c :: t).takeWhile isAsciiDigit)
    else firstDigitRun t

/-- Decimal value of a digit run. -/
def digitsToNat (l : List Char) : Nat := l.foldl (fun a c => a * 10 + digitVal c) 0

/-- Embeds `VisionQuizGenerator._percent2float` (quiz_generator.py lines 487-504),
with the machine float modelled as an exact rational. -/
def percent2float (s : String) : ℚ :=
  match firstDigitRun s.data with
  | some run => (digitsToNat run : ℚ) / 100
  | none => 0

/-- The condition under which `_percent2float` logs its warning (line 503). -/
def percent2floatWarns (s : String) : Bool := (firstDigitRun s.data).isNone

/-- Value of the first digit run of a string, `0` when there is none. -/
def digitRunVal (s : String) : Nat :=
  match firstDigitRun s.data with
  | some run => digitsToNat run
  | none => 0

/-- Directive `%Y` of CPython `_strptime`: exactly four decimal digits. -/
def parseYear4 : List Char → Option (Nat × List Char)
  | a :: b :: c :: d :: rest =>
    if isAsciiDigit a ∧ isAsciiDigit b ∧ isAsciiDigit c ∧ isAsciiDigit d then
      some (digitsToNat [a, b, c, d], rest)
    else none
  | _ => none

/-- Directive `%m` of CPython `_strptime`: the regex `1[0-2]|0[1-9]|[1-9]`, alternatives
tried in this order (committed choice is exact here: when a two-digit
alternative matches but the following literal fails, the one-digit fallback
also fails, because the following character is a digit). -/
def parseMonth : List Char → Option (Nat × List Char)
  | a :: b :: rest =>
    if a = '1' ∧ ('0' ≤ b ∧ b ≤ '2') then some (10 + digitVal b, rest)
    else if a = '0' ∧ ('1' ≤ b ∧ b ≤ '9') then some (digitVal b, rest)
    else if '1' ≤ a ∧ a ≤ '9' then some (digitVal a, b :: rest)
    else none
  | [a] => if '1' ≤ a ∧ a ≤ '9' then some (digitVal a, []) else none
  | [] => none

/-- Directive `%d` of CPython `_strptime`: the regex `3[01]|[12]\d|0[1-9]|[1-9]| [1-9]`. -/
def parseDay : List Char → Option (Nat × List Char)
  | a :: b :: rest =>
    if a = '3' ∧ (b = '0' ∨ b = '1') then some (30 + digitVal b, rest)
    else if (a = '1' ∨ a = '2') ∧ isAsciiDigit b then
      some (digitVal a * 10 + digitVal b, rest)
    else if a = '0' ∧ ('1' ≤ b ∧ b ≤ '9') then some (digitVal b, rest)
    else if '1' ≤ a ∧ a ≤ '9' then some (digitVal a, b :: rest)
    else if a = ' ' ∧ ('1' ≤ b ∧ b ≤ '9') then some (digitVal b, rest)
    else none
  | [a] => if '1' ≤ a ∧ a ≤ '9' then some (digitVal a, []) else none
  | [] => none

/-- Consume one expected literal character of the format string. -/
def expectChar (c : Char) : List Char → Option (List Char)
  | x :: rest => if x = c then some rest else none
  | [] => none

/-- Gregorian leap-year rule, as in `datetime`. -/
def isLeapYear (y : Nat) : Bool := decide ((y % 4 = 0 ∧ y % 100 ≠ 0) ∨ y % 400 = 0)

/-- Days in a month, as validated by the `datetime` constructor. -/
def daysInMonth (y m : Nat) : Nat :=
  if m = 2 then (if isLeapYear y then 29 else 28)
  else if m = 4 ∨ m = 6 ∨ m = 9 ∨ m = 11 then 30
  else 31

/-- The `_strptime` regex phase of `datetime.strptime(date, "%Y년%m월%d일")`:
the anchored match of `%Y`, literal `년`, `%m`, literal `월`, `%d`, literal
`일`, plus the trailing "unconverted data remains" check. -/
def strptimeKorean (s : List Char) : Option (Nat × Nat × Nat) :=
  match parseYear4 s with
  | none => none
  | some (y, r1) =>
    match expectChar '년' r1 with
    | none => none
    | some r2 =>
      match parseMonth r2 with
      | none => none
      | some (m, r3) =>
        match expectChar '월' r3 with
        | none => none
        | some r4 =>
          match parseDay r4 with
          | none => none
          | some (d, r5) =>
            match expectChar '일' r5 with
            | none => none
            | some r6 => if r6 = [] then some (y, m, d) else none

/-- The `datetime(year, month, day)` constructor validation:
`MINYEAR = 1 ≤ year ≤ MAXYEAR = 9999`, month 1-12, day within the month. -/
def datetimeValid (y m d : Nat) : Bool :=
  decide (1 ≤ y ∧ y ≤ 9999 ∧ 1 ≤ m ∧ m ≤ 12 ∧ 1 ≤ d ∧ d ≤ daysInMonth y m)

/-- Embeds `datetime.strptime(date, "%Y년%m월%d일")` (quiz_generator.py line 482):
regex match, then construction of the `datetime` value. -/
def parseKoreanDate (s : List Char) : Option (Nat × Nat × Nat) :=
  match strptimeKorean s with
  | some (y, m, d) => if datetimeValid y m d then some (y, m, d) else none
  | none => none

/-- Left-pad a numeral with zeros to the given width. -/
def padZeros (w : Nat) (s : String) : String :=
  ⟨List.replicate (w - s.data.length) '0' ++ s.data⟩

/-- Embeds `date_obj.strftime("%Y-%m-%d")` (quiz_generator.py line 485). -/
def formatYmd (y m d : Nat) : String :=
  padZeros 4 (Nat.repr y) ++ "-" ++ padZeros 2 (Nat.repr m) ++ "-" ++ padZeros 2 (Nat.repr d)

/-- Embeds `VisionQuizGenerator._convert_time` (quiz_generator.py lines 470-485):
`strptime` then `strftime`; a `ValueError` from either the pattern match or
the date validation is the spec's `DateFormatError`. -/
def convert_time (date : String) : Except String String :=
  match parseKoreanDate date.data with
  | some (y, m, d) => .ok (formatYmd y m d)
  | none => .error "DateFormatError"

/-- Python `str(n)` for an integer. -/
def pyStr (n : Int) : String :=
  if n < 0 then "-" ++ Nat.repr n.natAbs else Nat.repr n.natAbs

/-- Python `s.zfill(w)`: zero-pad on the left, keeping a leading sign. -/
def pyZfill (s : String) (w : Nat) : String :=
  match s.data with
  | '-' :: rest => ⟨'-' :: (List.replicate (w - (rest.length + 1)) '0' ++ rest)⟩
  | l => ⟨List.replicate (w - l.length) '0' ++ l⟩

/-- Embeds `os.path.join(a, b)` for POSIX paths. -/
def pyPathJoin (a b : String) : String :=
  if b.data.head? = some '/' then b
  else if a = "" ∨ a.data.getLast? = some '/' then a ++ b
  else a ++ "/" ++ b

/-- The image path produced by `VisionQuizGenerator._decode_img`
(quiz_generator.py line 448); the decoded bytes themselves are an external
side effect not needed by any claim. -/
def decodeImgPath (outputDir field name date : String) (number : Int) : String :=
  pyPathJoin outputDir (field ++ "-" ++ name ++ "-" ++ date ++ "-" ++
    pyZfill (pyStr number) 3 ++ ".png")

/-- The answer normalization of `VisionQuizGenerator.generate_quiz`
(quiz_generator.py line 371): successive global replacements of the four
enumerant patterns and the point phrase, then strip and lowercase.  Note
that Python `str.replace` replaces every occurrence, not only a leading one. -/
def normalize_answer (raw : String) : String :=
  pyLower (pyStrip (pyReplace (pyReplace (pyReplace (pyReplace (pyReplace raw
    "1. " "") "2. " "") "3. " "") "4. " "") POINT_PHRASE ""))

/-- A vision-mode source row (one tuple of `VisionQuizGenerator.load_data`).
`image = none` models an absent image cell, `explanation = none` models a
non-string (NaN) cell; `number` carries the already-truncated `int(number)`. -/
structure VEntry where
  number : Int
  question : String
  queries : String
  image : Option String
  answer : String
  explanation : Option String
  rate : String
  field : String
  name : String
  date : String
  subject : String
deriving DecidableEq, Repr

/-- The record returned by `VisionQuizGenerator.generate_quiz` (lines 392-410). -/
structure VRecord where
  question : String
  image : String
  optionsText : List String
  optionsLabel : List Char
  answerText : String
  answerKey : Char
  explanation : String
  rate : ℚ
  field : String
  name : String
  date : String
  subject : String
  vision : Nat
deriving DecidableEq, Repr

/-- Outcome of `VisionQuizGenerator.generate_quiz`: a record, a logged
skip (the warning of line 380, carrying the identifying fields it prints),
or a propagated `ValueError` from `_convert_time`. -/
inductive VResult where
  | record (r : VRecord)
  | skip (field name date : String) (number : Int)
  | dateError (msg : String)
deriving DecidableEq, Repr

/-- Embeds `[option.strip().lower() for option in cls._split_queries(queries)]`
(quiz_generator.py line 372). -/
def visionOptions (queries : String) : List String :=
  (split_queries queries).map (fun o => pyLower (pyStrip o))

/-- Embeds `VisionQuizGenerator.generate_quiz` (quiz_generator.py lines 338-410). -/
def vGenerateQuiz (imageDir : String) (e : VEntry) : VResult :=
  let ca := normalize_answer e.answer
  let options := visionOptions e.queries
  let labels := labelsFor options.length
  match correctLabel (labels.zip options) ca with
  | none => .skip e.field e.name e.date e.number
  | some key =>
    let decodedImage : String :=
      match e.image with
      | some img =>
        if img ≠ "" then decodeImgPath imageDir e.field e.name e.date e.number else ""
      | none => ""
    let expl0 : String :=
      match e.explanation with
      | some s => s
      | none => ""
    let expl :=
      if strContains expl0 EXPL_MARKER then pyStrip (pyReplace expl0 EXPL_MARKER "")
      else expl0
    match convert_time e.date with
    | .error m => .dateError m
    | .ok d =>
      .record { question := e.question
                image := decodedImage
                optionsText := options
                optionsLabel := labels
                answerText := ca
                answerKey := key
                explanation := expl
                rate := percent2float e.rate
                field := e.field
                name := e.name
                date := d
                subject := e.subject
                vision := if decodedImage ≠ "" then 1 else 0 }

/-- Embeds `VisionQuizGenerator.generate_all_quizzes` (quiz_generator.py line 516):
keep the non-`None` results in row order; an exception from any row aborts
the whole comprehension. -/
def vGenerateAll (imageDir : String) : List VEntry → Except String (List VRecord)
  | [] => .ok []
  | e :: rest =>
    match vGenerateQuiz imageDir e with
    | .dateError m => .error m
    | .skip _ _ _ _ => vGenerateAll imageDir rest
    | .record r => (vGenerateAll imageDir rest).map (fun l => r :: l)

/-- Whether a row was skipped. -/
def isSkip : VResult → Bool
  | .skip _ _ _ _ => true
  | _ => false

/-- Whether a row raised through `_convert_time`. -/
def isDateError : VResult → Bool
  | .dateError _ => true
  | _ => false

/-- The record a row produces, if any. -/
def recOf (imageDir : String) (e : VEntry) : Option VRecord :=
  match vGenerateQuiz imageDir e with
  | .record r => some r
  | _ => none

/-- The accuracy field of a produced record, if any. -/
def vRateOf : VResult → Option ℚ
  | .record r => some r.rate
  | _ => none

/-! ### FileFormatConverter, src/make_data/format_converter.py -/

/-- Python `s.rfind(c)`: index of the last occurrence, `-1` when absent. -/
def pyRfind (l : List Char) (c : Char) : Int :=
  (List.range l.length).foldl (fun acc i => if l.getD i ' ' = c then (i : Int) else acc) (-1)

/-- Embeds `os.path.splitext` (posixpath): split off the suffix starting at the last
dot of the basename, unless all characters of the basename before that dot
are dots themselves. -/
def splitext (p : String) : String × String :=
  let l := p.data
  let sepIndex := pyRfind l '/'
  let dotIndex := pyRfind l '.'
  if sepIndex < dotIndex ∧
      ((List.range l.length).any
        (fun j => decide (sepIndex < (j : Int) ∧ (j : Int) < dotIndex ∧ l.getD j ' ' ≠ '.'))) then
    (⟨l.take dotIndex.toNat⟩, ⟨l.drop dotIndex.toNat⟩)
  else (p, "")

/-- The pandas reader selected by `FileFormatConverter._read_file`. -/
inductive ReadKind where
  | excel | csv | txt | json | html | parquet | feather | orc | sas | stata | hdf | pkl
deriving DecidableEq, Repr

/-- The pandas writer selected by `FileFormatConverter._save_file`. -/
inductive WriteKind where
  | excel | csv | txt | json | jsonl | html | parquet | feather | stata | hdf | pkl
deriving DecidableEq, Repr

/-- The extension dispatch of `FileFormatConverter._read_file`
(format_converter.py lines 176-213); the `else` branch raises `ValueError`. -/
def read_file_dispatch (ext : String) : Except String ReadKind :=
  if ext = ".xlsx" ∨ ext = ".xls" then .ok .excel
  else if ext = ".csv" then .ok .csv
  else if ext = ".txt" then .ok .txt
  else if ext = ".json" then .ok .json
  else if ext = ".html" then .ok .html
  else if ext = ".parquet" then .ok .parquet
  else if ext = ".feather" then .ok .feather
  else if ext = ".orc" then .ok .orc
  else if ext = ".sas" then .ok .sas
  else if ext = ".stata" then .ok .stata
  else if ext = ".hdf" then .ok .hdf
  else if ext = ".pkl" then .ok .pkl
  else .error ("Unsupported file format: " ++ ext)

/-- The extension dispatch of `FileFormatConverter._save_file`
(format_converter.py lines 215-256); `.orc` and `.sas` raise explicitly,
and the `else` branch raises `ValueError`. -/
def save_file_dispatch (ext : String) : Except String WriteKind :=
  if ext = ".xlsx" ∨ ext = ".xls" then .ok .excel
  else if ext = ".csv" then .ok .csv
  else if ext = ".txt" then .ok .txt
  else if ext = ".json" then .ok .json
  else if ext = ".jsonl" then .ok .jsonl
  else if ext = ".html" then .ok .html
  else if ext = ".parquet" then .ok .parquet
  else if ext = ".feather" then .ok .feather
  else if ext = ".orc" then .error "Saving to ORC is not supported natively by pandas."
  else if ext = ".sas" then .error "Saving to SAS format is not supported by pandas."
  else if ext = ".stata" then .ok .stata
  else if ext = ".hdf" then .ok .hdf
  else if ext = ".pkl" then .ok .pkl
  else .error ("Unsupported file format for saving: " ++ ext)

/-- The read-supported extension set (the dispatch keys of `_read_file`). -/
def readSupportedExts : List String :=
  [".xlsx", ".xls", ".csv", ".txt", ".json", ".html", ".parquet", ".feather",
   ".orc", ".sas", ".stata", ".hdf", ".pkl"]

/-- The write-supported extension set (the keys of `_save_file` that write). -/
def writeSupportedExts : List String :=
  [".xlsx", ".xls", ".csv", ".txt", ".json", ".jsonl", ".html", ".parquet",
   ".feather", ".stata", ".hdf", ".pkl"]

/-- The converter's observable state: what `self._df` currently holds
(`none` is the empty frame of `__init__`; `some (k, p)` is the frame read
from path `p` with reader `k`). -/
structure ConvState where
  df : Option (ReadKind × String)
deriving DecidableEq, Repr

/-- An external side effect of the converter: a write of the current frame. -/
inductive ConvEvent where
  | write (k : WriteKind) (path : String)
deriving DecidableEq, Repr

/-- Embeds `FileFormatConverter._read_file` as a state transformer: on a supported
extension the frame is replaced, on an unsupported one the `ValueError`
leaves the state untouched. -/
def readFileSt (st : ConvState) (inputPath : String) : Except String ConvState :=
  match read_file_dispatch (splitext inputPath).2 with
  | .ok k => .ok ⟨some (k, inputPath)⟩
  | .error m =>
    let _ := st
    .error m

/-- Embeds `FileFormatConverter._save_file` as its emitted write events. -/
def saveFileEvents (outPath : String) : Except String (List ConvEvent) :=
  match save_file_dispatch (splitext outPath).2 with
  | .ok k => .ok [.write k outPath]
  | .error m => .error m

/-- Embeds `FileFormatConverter.__call__` (format_converter.py lines 258-272):
read, then save, returning the final state, the emitted write events, and
the result.  An exception before a step suppresses that step. -/
def convCall (st : ConvState) (inputPath outputPath : String) :
    ConvState × List ConvEvent × Except String String :=
  match readFileSt st inputPath with
  | .error m => (st, [], .error m)
  | .ok st' =>
    match saveFileEvents outputPath with
    | .error m => (st', [], .error m)
    | .ok evs =>
      (st', evs, .ok ("File saved successfully at \"" ++ outputPath ++ "\"."))

/-! ### Definitions modelled from the spec's words (for refutation targets) -/

/-- Modelled from the spec: strip at most one leading enumerant prefix
(`"1. "` .. `"4. "`), as the spec's words "strip leading enumerants" describe
(C6's reading of quiz_generator.py line 371). -/
def stripLeadingEnum (s : String) : String :=
  if ("1. ".data).isPrefixOf s.data then ⟨s.data.drop 3⟩
  else if ("2. ".data).isPrefixOf s.data then ⟨s.data.drop 3⟩
  else if ("3. ".data).isPrefixOf s.data then ⟨s.data.drop 3⟩
  else if ("4. ".data).isPrefixOf s.data then ⟨s.data.drop 3⟩
  else s

/-- Modelled from the spec: the normalization C6 describes, which touches
only a leading enumerant, removes the boilerplate phrase, trims, lowercases. -/
def specNormalizeAnswer (s : String) : String :=
  pyLower (pyStrip (pyReplace (stripLeadingEnum s) POINT_PHRASE ""))

/-- Modelled from the spec: the exact textual pattern `YYYY년MM월DD일` of C7:
four digits, the literal `년`, two digits, `월`, two digits, `일`. -/
def matchesExactKoreanPattern (s : String) : Bool :=
  match s.data with
  | [y1, y2, y3, y4, k1, m1, m2, k2, d1, d2, k3] =>
    isAsciiDigit y1 && isAsciiDigit y2 && isAsciiDigit y3 && isAsciiDigit y4 &&
    (k1 = '년' : Bool) && isAsciiDigit m1 && isAsciiDigit m2 &&
    (k2 = '월' : Bool) && isAsciiDigit d1 && isAsciiDigit d2 && (k3 = '일' : Bool)
  | _ => false

/-! ### Concrete rows used by witnesses and counterexamples -/

/-- A well-formed vision row with a matchable answer and an 82% rate. -/
def entryGood : VEntry :=
  { number := 1, question := "q", queries := "1.\nfoo\n2.\nbar\n", image := none,
    answer := "foo", explanation := none, rate := "82%", field := "F",
    name := "N", date := "2022년04월24일", subject := "S" }

/-- The same row with a rate whose first digit run exceeds 100. -/
def entry150 : VEntry :=
  { entryGood with rate := "150%" }

/-- A row whose stated answer matches none of its parsed options. -/
def entrySkip : VEntry :=
  { entryGood with answer := "baz", number := 2 }

/-- The record `vGenerateQuiz` produces for `entryGood`. -/
def entryGoodRecord : VRecord :=
  { question := "q", image := "", optionsText := ["foo", "bar"],
    optionsLabel := ['A', 'B'], answerText := "foo", answerKey := 'A',
    explanation := "", rate := percent2float "82%", field := "F", name := "N",
    date := "2022-04-24", subject := "S", vision := 0 }

/-!
## Theorems

Helper lemmas first, then one theorem per claim (with its witness or
counterexample where required).
-/

set_option maxRecDepth 8192

/-- An unsupported extension makes the read dispatch raise `ValueError`. -/
theorem read_dispatch_unsupported (ext : String) (h : ext ∉ readSupportedExts) :
    read_file_dispatch ext = .error ("Unsupported file format: " ++ ext) := by
  simp only [readSupportedExts, List.mem_cons, List.not_mem_nil, or_false, not_or] at h
  obtain ⟨h1, h2, h3, h4, h5, h6, h7, h8, h9, h10, h11, h12, h13⟩ := h
  simp [read_file_dispatch, h1, h2, h3, h4, h5, h6, h7, h8, h9, h10, h11, h12, h13]

/-- An extension outside the write-capable set and distinct from the two
explicitly rejected columnar formats makes the save dispatch raise. -/
theorem save_dispatch_unsupported (ext : String) (h : ext ∉ writeSupportedExts)
    (horc : ext ≠ ".orc") (hsas : ext ≠ ".sas") :
    save_file_dispatch ext = .error ("Unsupported file format for saving: " ++ ext) := by
  simp only [writeSupportedExts, List.mem_cons, List.not_mem_nil, or_false, not_or] at h
  obtain ⟨h1, h2, h3, h4, h5, h6, h7, h8, h9, h10, h11, h12⟩ := h
  simp [save_file_dispatch, h1, h2, h3, h4, h5, h6, h7, h8, h9, h10, h11, h12, horc, hsas]

/-- C9: for every file path whose extension is not in the supported set, the
format converter's read and write operations each raise an explicit
unsupported-format error, and for the write-unsupported columnar formats
(ORC, SAS) the write operation raises explicitly rather than silently doing
nothing. -/
theorem c9_unsupported_format_errors (p q : String)
    (hr : (splitext p).2 ∉ readSupportedExts)
    (hw : (splitext q).2 ∉ writeSupportedExts)
    (horc : (splitext q).2 ≠ ".orc") (hsas : (splitext q).2 ≠ ".sas") :
    read_file_dispatch (splitext p).2 =
      .error ("Unsupported file format: " ++ (splitext p).2) ∧
    save_file_dispatch (splitext q).2 =
      .error ("Unsupported file format for saving: " ++ (splitext q).2) ∧
    save_file_dispatch ".orc" = .error "Saving to ORC is not supported natively by pandas." ∧
    save_file_dispatch ".sas" = .error "Saving to SAS format is not supported by pandas." :=
  ⟨read_dispatch_unsupported _ hr, save_dispatch_unsupported _ hw horc hsas, rfl, rfl⟩

/-- Witness for C9 at the concrete paths `data.xyz` and `out.abc`. -/
theorem c9_witness :
    read_file_dispatch (splitext "data.xyz").2 =
      .error ("Unsupported file format: " ++ (splitext "data.xyz").2) ∧
    save_file_dispatch (splitext "out.abc").2 =
      .error ("Unsupported file format for saving: " ++ (splitext "out.abc").2) ∧
    save_file_dispatch ".orc" = .error "Saving to ORC is not supported natively by pandas." ∧
    save_file_dispatch ".sas" = .error "Saving to SAS format is not supported by pandas." :=
  c9_unsupported_format_errors "data.xyz" "out.abc" (by decide) (by decide)
    (by decide) (by decide)

/-- C10: when the converter is invoked on an input path with an unsupported
extension, it raises before any write is attempted, produces no write event,
and leaves the stored dataframe state unchanged. -/
theorem c10_read_failure_is_atomic (st : ConvState) (inPath outPath : String)
    (h : (splitext inPath).2 ∉ readSupportedExts) :
    convCall st inPath outPath =
      (st, [], .error ("Unsupported file format: " ++ (splitext inPath).2)) := by
  unfold convCall readFileSt
  rw [read_dispatch_unsupported _ h]

/-- Witness for C10 at a concrete state and concrete paths. -/
theorem c10_witness :
    convCall ⟨some (.csv, "old.csv")⟩ "in.xyz" "out.csv" =
      (⟨some (.csv, "old.csv")⟩, [],
        .error ("Unsupported file format: " ++ (splitext "in.xyz").2)) :=
  c10_read_failure_is_atomic ⟨some (.csv, "old.csv")⟩ "in.xyz" "out.csv" (by decide)

/-- C4: when the requested distractor count exceeds the eligible pool,
`random.sample` raises (`none`) and the failure propagates out of
`generate_quiz`; no record is produced at all. -/
theorem c4_insufficient_pool_propagates (template ck loanword correct : String)
    (data : List (String × String)) (n : Nat) (idxs ord : List Nat)
    (h : (distractorPool data correct).length < n) :
    get_distractors data correct n idxs = none ∧
    generate_quiz template ck loanword correct data n idxs ord = .error .insufficientPool := by
  have hg : get_distractors data correct n idxs = none := by
    unfold get_distractors randomSample
    rw [if_neg (by omega)]
  refine ⟨hg, ?_⟩
  unfold generate_quiz
  rw [hg]

/-- Witness for C4: a one-pair table cannot supply two distractors. -/
theorem c4_witness :
    get_distractors [("a", "p")] "c" 2 [0, 1] = none ∧
    generate_quiz "Q LOANWORD?" "LOANWORD" "w" "c" [("a", "p")] 2 [0, 1] [0, 1, 2] =
      .error .insufficientPool :=
  c4_insufficient_pool_propagates "Q LOANWORD?" "LOANWORD" "w" "c" [("a", "p")] 2
    [0, 1] [0, 1, 2] (by decide)

/-- Counterexample for C2: when the source table carries the same Korean word
twice, a successful sample can contain two textually equal distractors, so
the claim "never returns duplicate entries" fails on the code. -/
theorem c2_counterexample_duplicate_distractors :
    get_distractors [("a", "x"), ("b", "x")] "y" 2 [0, 1] = some ["x", "x"] ∧
    ¬ (["x", "x"] : List String).Nodup :=
  ⟨by decide, by decide⟩

/-- The validated index oracle is duplicate-free, has the requested length,
and stays within the population. -/
theorem selectIdxs_spec (len k : Nat) (idxs : List Nat) (hk : k ≤ len) :
    (selectIdxs len k idxs).Nodup ∧ (selectIdxs len k idxs).length = k ∧
      ∀ i ∈ selectIdxs len k idxs, i < len := by
  unfold selectIdxs
  split
  next h => exact ⟨h.1, h.2.1, h.2.2⟩
  next =>
    exact ⟨List.nodup_range k, List.length_range k,
      fun i hi => lt_of_lt_of_le (List.mem_range.mp hi) hk⟩

/-- Indexing with a default inside the bounds is list membership. -/
theorem getD_mem_of_lt {l : List String} {i : Nat} (h : i < l.length) (d : String) :
    l.getD i d ∈ l := by
  rw [List.getD_eq_getElem?_getD, List.getElem?_eq_getElem h]
  exact List.getElem_mem h

/-- Members of the eligible pool are never the correct answer. -/
theorem mem_distractorPool_ne (data : List (String × String)) (correct x : String)
    (hx : x ∈ distractorPool data correct) : x ≠ correct := by
  unfold distractorPool at hx
  obtain ⟨p, hp, rfl⟩ := List.mem_map.mp hx
  have h2 := (List.mem_filter.mp hp).2
  simpa using h2

/-- A successful sample decomposes into the validated index selection. -/
theorem get_distractors_eq (data : List (String × String)) (correct : String)
    (n : Nat) (idxs : List Nat) (ds : List String)
    (h : get_distractors data correct n idxs = some ds) :
    n ≤ (distractorPool data correct).length ∧
    ds = (selectIdxs (distractorPool data correct).length n idxs).map
        (fun i => (distractorPool data correct).getD i "") := by
  unfold get_distractors randomSample at h
  split at h
  next hle => exact ⟨hle, (Option.some.inj h).symm⟩
  next => exact absurd h (by simp)

/-- C2 (amended): a successful sample never contains the correct answer, and
it is duplicate-free whenever the eligible pool itself is duplicate-free
(the entries are drawn at distinct pool positions, so duplicates can arise
only from duplicate pool texts). -/
theorem c2_amended_distractor_sampling (data : List (String × String)) (correct : String)
    (n : Nat) (idxs : List Nat) (ds : List String)
    (h : get_distractors data correct n idxs = some ds) :
    (∀ x ∈ ds, x ≠ correct) ∧ ((distractorPool data correct).Nodup → ds.Nodup) := by
  obtain ⟨hle, hds⟩ := get_distractors_eq data correct n idxs ds h
  obtain ⟨hsel_nd, hsel_len, hsel_lt⟩ :=
    selectIdxs_spec (distractorPool data correct).length n idxs hle
  subst hds
  constructor
  · intro x hx
    obtain ⟨i, hi, rfl⟩ := List.mem_map.mp hx
    exact mem_distractorPool_ne data correct _ (getD_mem_of_lt (hsel_lt i hi) "")
  · intro hpool
    refine List.Nodup.map_on ?_ hsel_nd
    intro i hi j hj hij
    have hi' := hsel_lt i hi
    have hj' := hsel_lt j hj
    rw [List.getD_eq_getElem?_getD, List.getElem?_eq_getElem hi',
      List.getD_eq_getElem?_getD, List.getElem?_eq_getElem hj'] at hij
    exact (@List.Nodup.getElem_inj_iff _ _ hpool i hi' j hj').mp (by simpa using hij)

/-- Witness for C2's amended claim on a duplicate-free pool. -/
theorem c2_amended_witness :
    (∀ x ∈ (["p", "q"] : List String), x ≠ "c") ∧
    ((distractorPool [("a", "p"), ("b", "q")] "c").Nodup → (["p", "q"] : List String).Nodup) :=
  c2_amended_distractor_sampling [("a", "p"), ("b", "q")] "c" 2 [0, 1] ["p", "q"] (by decide)

/-- Dropping a satisfied prefix twice is the same as dropping it once. -/
theorem dropWhile_dropWhile (p : Char → Bool) (l : List Char) :
    List.dropWhile p (List.dropWhile p l) = List.dropWhile p l := by
  cases h : List.dropWhile p l with
  | nil => simp
  | cons a t =>
    have ha : p a = false := by
      have hw := List.head_dropWhile_not p l (by simp [h])
      simpa [h] using hw
    simp [List.dropWhile_cons, ha]

/-- The first element surviving `dropWhile` fails the predicate. -/
theorem head?_dropWhile (p : Char → Bool) (l : List Char) :
    ∀ y, (List.dropWhile p l).head? = some y → p y = false := by
  intro y hy
  cases h : List.dropWhile p l with
  | nil =>
    rw [h] at hy
    exact absurd hy (by simp)
  | cons a t =>
    rw [h] at hy
    have ha : p a = false := by
      have hw := List.head_dropWhile_not p l (by simp [h])
      simpa [h] using hw
    cases hy
    exact ha

/-- A prefix of a list whose head fails the predicate survives `dropWhile`. -/
theorem dropWhile_eq_self_of_prefixed (p : Char → Bool) {d c : List Char}
    (hpre : d <+: c) (hc : ∀ y, c.head? = some y → p y = false) :
    List.dropWhile p d = d := by
  cases hd : d with
  | nil => simp
  | cons a t =>
    obtain ⟨u, hu⟩ := hpre
    rw [hd] at hu
    have ha : p a = false := hc a (by rw [← hu]; rfl)
    simp [List.dropWhile_cons, ha]

/-- Python `strip` is idempotent (list form). -/
theorem pyStripL_idem (l : List Char) : pyStripL (pyStripL l) = pyStripL l := by
  unfold pyStripL
  set X := l.dropWhile pyIsSpace with hX
  set D := (X.reverse.dropWhile pyIsSpace).reverse with hD
  have hpre : D <+: X := by
    obtain ⟨u, hu⟩ := (List.dropWhile_suffix pyIsSpace : _ <:+ X.reverse)
    refine ⟨u.reverse, ?_⟩
    have h1 := congrArg List.reverse hu
    rw [List.reverse_append, List.reverse_reverse] at h1
    rw [hD]
    exact h1
  have hdwD : D.dropWhile pyIsSpace = D := by
    refine dropWhile_eq_self_of_prefixed pyIsSpace hpre ?_
    rw [hX]
    exact head?_dropWhile pyIsSpace l
  have hDrev : D.reverse = X.reverse.dropWhile pyIsSpace := by
    rw [hD, List.reverse_reverse]
  rw [hdwD, hDrev, dropWhile_dropWhile, ← hDrev, List.reverse_reverse]

/-- Python `strip` is idempotent. -/
theorem pyStrip_idem (s : String) : pyStrip (pyStrip s) = pyStrip s :=
  congrArg String.mk (pyStripL_idem s.data)

/-- C8: option parsing removes the boilerplate fragment, splits on
enumerant markers `<digits>.\n`, trims every emitted segment and drops the
empty ones; on the concrete input of the claim it yields exactly
`["foo", "bar"]`, with or without a leading boilerplate occurrence. -/
theorem c8_split_queries_spec :
    split_queries "1.\nfoo\n2.\nbar\n" = ["foo", "bar"] ∧
    split_queries (BOILERPLATE ++ "1.\nfoo\n2.\nbar\n") = ["foo", "bar"] ∧
    ∀ (s : String), ∀ x ∈ split_queries s, x ≠ "" ∧ pyStrip x = x := by
  refine ⟨by decide, by decide, ?_⟩
  intro s x hx
  unfold split_queries at hx
  have hx' := List.mem_filter.mp hx
  obtain ⟨l, _, rfl⟩ := List.mem_map.mp hx'.1
  exact ⟨by simpa using hx'.2, pyStrip_idem _⟩

/-- Witness for C8's universally quantified part at a concrete segment. -/
theorem c8_witness :
    "foo" ≠ "" ∧ pyStrip "foo" = "foo" :=
  c8_split_queries_spec.2.2 "1.\nfoo\n2.\nbar\n" "foo" (by decide)

/-- Counterexample for C6: the code removes the non-leading occurrence of
`"2. "` from `"x 2. y"`, while the claim's leading-only normalization
(`specNormalizeAnswer`, modelled from the spec's words) leaves it intact. -/
theorem c6_counterexample_nonleading_enumerant :
    normalize_answer "x 2. y" = "x y" ∧
    specNormalizeAnswer "x 2. y" = "x 2. y" ∧
    normalize_answer "x 2. y" ≠ specNormalizeAnswer "x 2. y" :=
  ⟨by decide, by decide, by decide⟩

/-- A string with no occurrence of the pattern is unchanged by `replace`
(fuel form). -/
theorem pyReplaceFuel_of_not_contains (pat rep : List Char) :
    ∀ (f : Nat) (s : List Char), s.length ≤ f → listContains s pat = false →
      pyReplaceFuel pat rep f s = s := by
  intro f
  induction f with
  | zero =>
    intro s hs _
    have hnil : s = [] := List.length_eq_zero.mp (Nat.le_zero.mp hs)
    subst hnil
    rfl
  | succ f ih =>
    intro s hs hc
    cases s with
    | nil => rfl
    | cons c t =>
      unfold listContains at hc
      split at hc
      · exact absurd hc (by simp)
      next hpre =>
        have ht : t.length ≤ f := by
          simp only [List.length_cons] at hs
          omega
        unfold pyReplaceFuel
        rw [if_neg (fun hand => hpre hand.2), ih t ht hc]

/-- A string with no occurrence of the pattern is unchanged by `replace`. -/
theorem pyReplace_of_not_contains (s pat rep : String) (h : strContains s pat = false) :
    pyReplace s pat rep = s := by
  unfold pyReplace pyReplaceL
  rw [pyReplaceFuel_of_not_contains pat.data rep.data s.data.length s.data (le_refl _) h]

/-- C6 (amended): the normalization removes every occurrence (not only a
leading one) of the patterns `"1. "`, `"2. "`, `"3. "`, `"4. "` and of the
point phrase, then trims and lowercases; a string containing none of the
five patterns is only trimmed and lowercased, a leading enumerant is
stripped, and a non-leading enumerant occurrence is removed as well. -/
theorem c6_amended_answer_normalization (s : String)
    (h1 : strContains s "1. " = false) (h2 : strContains s "2. " = false)
    (h3 : strContains s "3. " = false) (h4 : strContains s "4. " = false)
    (h5 : strContains s POINT_PHRASE = false) :
    normalize_answer s = pyLower (pyStrip s) ∧
    normalize_answer "2. foo" = "foo" ∧
    normalize_answer "x 2. y" = "x y" := by
  refine ⟨?_, by decide, by decide⟩
  unfold normalize_answer
  rw [pyReplace_of_not_contains s _ _ h1, pyReplace_of_not_contains s _ _ h2,
    pyReplace_of_not_contains s _ _ h3, pyReplace_of_not_contains s _ _ h4,
    pyReplace_of_not_contains s _ _ h5]

/-- Witness for C6's amended claim at the concrete input `"  Abc  "`. -/
theorem c6_amended_witness :
    normalize_answer "  Abc  " = pyLower (pyStrip "  Abc  ") ∧
    normalize_answer "2. foo" = "foo" ∧
    normalize_answer "x 2. y" = "x y" :=
  c6_amended_answer_normalization "  Abc  " (by decide) (by decide) (by decide)
    (by decide) (by decide)

/-- Counterexample for C7: a single-digit month does not match the exact
textual pattern `YYYY년MM월DD일`, yet `strptime` accepts it (the `%m` regex
also matches one digit), so `_convert_time` succeeds where the claim demands
a `DateFormatError`. -/
theorem c7_counterexample_lenient_month :
    matchesExactKoreanPattern "2022년4월24일" = false ∧
    convert_time "2022년4월24일" = .ok "2022-04-24" :=
  ⟨by decide, rfl⟩

/-- A successful parse satisfies the `datetime` constructor's bounds. -/
theorem parseKoreanDate_bounds (s : List Char) (y m d : Nat)
    (h : parseKoreanDate s = some (y, m, d)) :
    1 ≤ y ∧ y ≤ 9999 ∧ 1 ≤ m ∧ m ≤ 12 ∧ 1 ≤ d ∧ d ≤ daysInMonth y m := by
  unfold parseKoreanDate at h
  split at h
  next y' m' d' heq =>
    split at h
    next hvalid =>
      obtain ⟨rfl, rfl, rfl⟩ : y' = y ∧ m' = m ∧ d' = d := by
        have := Option.some.inj h
        exact ⟨congrArg Prod.fst this, congrArg Prod.fst (congrArg Prod.snd this),
          congrArg Prod.snd (congrArg Prod.snd this)⟩
      exact of_decide_eq_true hvalid
    next => exact absurd h (by simp)
  next => exact absurd h (by simp)

/-- C7 (amended): the conversion succeeds exactly on the lenient `strptime`
pattern — four-digit year, one- or two-digit month and day with the Korean
literals — provided the triple is a valid calendar date, and then produces
the zero-padded `YYYY-MM-DD` rendering; both `2022년04월24일` and the
non-exact `2022년4월24일` map to `2022-04-24`, while calendar-invalid or
non-matching strings raise `DateFormatError`. -/
theorem c7_amended_date_conversion (s : String) (y m d : Nat)
    (h : parseKoreanDate s.data = some (y, m, d)) :
    convert_time s = .ok (formatYmd y m d) ∧
    (1 ≤ y ∧ y ≤ 9999 ∧ 1 ≤ m ∧ m ≤ 12 ∧ 1 ≤ d ∧ d ≤ daysInMonth y m) ∧
    convert_time "2022년04월24일" = .ok "2022-04-24" ∧
    convert_time "2022년4월24일" = .ok "2022-04-24" ∧
    convert_time "2022년02월30일" = .error "DateFormatError" ∧
    convert_time "2022년13월01일" = .error "DateFormatError" ∧
    convert_time "2022-04-24" = .error "DateFormatError" := by
  refine ⟨?_, parseKoreanDate_bounds s.data y m d h, rfl, rfl, rfl, rfl, rfl⟩
  unfold convert_time
  rw [h]

/-- Witness for C7's amended claim at the leap date `2024년02월29일`. -/
theorem c7_amended_witness :
    convert_time "2024년02월29일" = .ok (formatYmd 2024 2 29) ∧
    (1 ≤ 2024 ∧ 2024 ≤ 9999 ∧ 1 ≤ 2 ∧ 2 ≤ 12 ∧ 1 ≤ 29 ∧ 29 ≤ daysInMonth 2024 2) ∧
    convert_time "2022년04월24일" = .ok "2022-04-24" ∧
    convert_time "2022년4월24일" = .ok "2022-04-24" ∧
    convert_time "2022년02월30일" = .error "DateFormatError" ∧
    convert_time "2022년13월01일" = .error "DateFormatError" ∧
    convert_time "2022-04-24" = .error "DateFormatError" :=
  c7_amended_date_conversion "2024년02월29일" 2024 2 29 rfl

/-- Counterexample for C5: a rate string whose first digit run exceeds 100
is stored unclamped on an emitted record, so the stored accuracy exceeds 1. -/
theorem c5_counterexample_accuracy_above_one :
    vRateOf (vGenerateQuiz "img" entry150) = some (percent2float "150%") ∧
    percent2float "150%" = 3 / 2 ∧
    ¬ percent2float "150%" ≤ 1 := by
  refine ⟨rfl, ?_, ?_⟩
  · have h2 : digitsToNat ['1', '5', '0'] = 150 := rfl
    show (digitsToNat ['1', '5', '0'] : ℚ) / 100 = 3 / 2
    rw [h2]
    norm_num
  · have h2 : digitsToNat ['1', '5', '0'] = 150 := rfl
    show ¬ (digitsToNat ['1', '5', '0'] : ℚ) / 100 ≤ 1
    rw [h2]
    norm_num

/-- The function `_percent2float` always yields the first digit run over 100. -/
theorem percent2float_eq_digitRunVal (s : String) :
    percent2float s = (digitRunVal s : ℚ) / 100 := by
  unfold percent2float digitRunVal
  cases firstDigitRun s.data with
  | none => norm_num
  | some run => rfl

/-- An emitted vision record stores exactly `_percent2float` of its raw rate. -/
theorem vGenerateQuiz_rate (dir : String) (e : VEntry) (r : VRecord)
    (h : vGenerateQuiz dir e = .record r) : r.rate = percent2float e.rate := by
  unfold vGenerateQuiz at h
  cases hc : correctLabel
      ((labelsFor (visionOptions e.queries).length).zip (visionOptions e.queries))
      (normalize_answer e.answer) with
  | none =>
    simp only [hc] at h
    exact VResult.noConfusion h
  | some key =>
    simp only [hc] at h
    cases hd : convert_time e.date with
    | error m =>
      simp only [hd] at h
      exact VResult.noConfusion h
    | ok dd =>
      simp only [hd] at h
      cases h
      rfl

/-- C5 (amended): percentage conversion takes the first digit run over 100
(`"82%"` gives `0.82`), defaults to `0.0` with a warning when no digit
occurs, and the accuracy stored on an emitted record is that unclamped
value: always nonnegative, and at most 1 exactly when the first digit run
is at most 100 — rates above 100% escape the `[0,1]` interval. -/
theorem c5_amended_percent_parsing (dir : String) (e : VEntry) (r : VRecord)
    (h : vGenerateQuiz dir e = .record r) :
    percent2float "82%" = 82 / 100 ∧
    (percent2float "no data" = 0 ∧ percent2floatWarns "no data" = true) ∧
    r.rate = percent2float e.rate ∧
    0 ≤ r.rate ∧
    (digitRunVal e.rate ≤ 100 → r.rate ≤ 1) := by
  have hrate := vGenerateQuiz_rate dir e r h
  refine ⟨?_, ⟨rfl, rfl⟩, hrate, ?_, ?_⟩
  · have h2 : digitsToNat ['8', '2'] = 82 := rfl
    show (digitsToNat ['8', '2'] : ℚ) / 100 = 82 / 100
    rw [h2]
    norm_num
  · rw [hrate, percent2float_eq_digitRunVal]
    positivity
  · intro hle
    rw [hrate, percent2float_eq_digitRunVal]
    rw [div_le_one (by norm_num)]
    exact_mod_cast le_trans (Nat.cast_le.mpr hle) (by norm_num)

/-- Witness for C5's amended claim at the concrete row `entryGood`. -/
theorem c5_amended_witness :
    percent2float "82%" = 82 / 100 ∧
    (percent2float "no data" = 0 ∧ percent2floatWarns "no data" = true) ∧
    entryGoodRecord.rate = percent2float entryGood.rate ∧
    0 ≤ entryGoodRecord.rate ∧
    (digitRunVal entryGood.rate ≤ 100 → entryGoodRecord.rate ≤ 1) :=
  c5_amended_percent_parsing "img" entryGood entryGoodRecord rfl

/-- When the sought text occurs in no pair, the label lookup finds nothing
(Python raises `IndexError` on the `[0]`). -/
theorem correctLabel_eq_none_of_not_mem (L : List Char) (T : List String) (t : String)
    (h : t ∉ T) : correctLabel (L.zip T) t = none := by
  unfold correctLabel
  have hf : (L.zip T).filter (fun p => p.2 == t) = [] := by
    rw [List.filter_eq_nil_iff]
    rintro ⟨c, x⟩ hp
    have hx := (List.of_mem_zip hp).2
    simp only [beq_iff_eq]
    exact fun heq => h (heq ▸ hx)
  rw [hf]
  rfl

/-- A row whose normalized answer is not among its parsed options is skipped
with the identifying warning fields. -/
theorem vGenerateQuiz_skip (dir : String) (e : VEntry)
    (h : normalize_answer e.answer ∉ visionOptions e.queries) :
    vGenerateQuiz dir e = .skip e.field e.name e.date e.number := by
  have hc := correctLabel_eq_none_of_not_mem
    (labelsFor (visionOptions e.queries).length) (visionOptions e.queries)
    (normalize_answer e.answer) h
  simp only [vGenerateQuiz, hc]

/-- The batch run keeps exactly the produced records, in row order, and the
kept count plus the skip count is the row count (when no row raises through
`_convert_time`). -/
theorem vGenerateAll_spec (imageDir : String) :
    ∀ entries : List VEntry,
      (∀ e ∈ entries, isDateError (vGenerateQuiz imageDir e) = false) →
      vGenerateAll imageDir entries = .ok (entries.filterMap (recOf imageDir)) ∧
      (entries.filterMap (recOf imageDir)).length +
        entries.countP (fun e => isSkip (vGenerateQuiz imageDir e)) = entries.length := by
  intro entries
  induction entries with
  | nil => exact fun _ => ⟨rfl, rfl⟩
  | cons e rest ih =>
    intro hne
    obtain ⟨hall, hcnt⟩ := ih (fun x hx => hne x (List.mem_cons_of_mem e hx))
    have he := hne e (List.mem_cons_self e rest)
    have hskip_le := List.countP_le_length
      (p := fun e => isSkip (vGenerateQuiz imageDir e)) (l := rest)
    cases hq : vGenerateQuiz imageDir e with
    | dateError m =>
      rw [hq] at he
      exact absurd he (by simp [isDateError])
    | skip f nm dt num =>
      have hrec : recOf imageDir e = none := by
        unfold recOf
        rw [hq]
      constructor
      · simp only [vGenerateAll, hq, List.filterMap_cons_none hrec]
        exact hall
      · rw [List.filterMap_cons_none hrec, List.countP_cons, hq, List.length_cons]
        have hskipTrue : (if isSkip (VResult.skip f nm dt num) then 1 else 0) = 1 := rfl
        rw [hskipTrue]
        omega
    | record r =>
      have hrec : recOf imageDir e = some r := by
        unfold recOf
        rw [hq]
      constructor
      · simp only [vGenerateAll, hq, List.filterMap_cons_some hrec, hall, Except.map]
      · rw [List.filterMap_cons_some hrec, List.countP_cons, hq, List.length_cons]
        have hskipFalse : (if isSkip (VResult.record r) then 1 else 0) = 0 := rfl
        rw [hskipFalse]
        simp only [List.length_cons]
        omega

/-- C3: a vision row whose normalized answer matches none of its parsed
option texts produces a skip carrying its `(field, name, date, number)`
instead of raising; the batch keeps exactly the non-skipped rows in source
order, and the emitted count is the row count minus the skip count. -/
theorem c3_vision_skip_and_batch (imageDir : String) (entries : List VEntry)
    (hnoerr : ∀ e ∈ entries, isDateError (vGenerateQuiz imageDir e) = false) :
    (∀ e ∈ entries, normalize_answer e.answer ∉ visionOptions e.queries →
        vGenerateQuiz imageDir e = .skip e.field e.name e.date e.number) ∧
    vGenerateAll imageDir entries = .ok (entries.filterMap (recOf imageDir)) ∧
    (entries.filterMap (recOf imageDir)).length =
      entries.length - entries.countP (fun e => isSkip (vGenerateQuiz imageDir e)) := by
  obtain ⟨h1, h2⟩ := vGenerateAll_spec imageDir entries hnoerr
  exact ⟨fun e _ hmem => vGenerateQuiz_skip imageDir e hmem, h1, by omega⟩

/-- Witness for C3 on a two-row batch with one unmatchable answer. -/
theorem c3_witness :
    (∀ e ∈ [entryGood, entrySkip], normalize_answer e.answer ∉ visionOptions e.queries →
        vGenerateQuiz "img" e = .skip e.field e.name e.date e.number) ∧
    vGenerateAll "img" [entryGood, entrySkip] =
      .ok ([entryGood, entrySkip].filterMap (recOf "img")) ∧
    ([entryGood, entrySkip].filterMap (recOf "img")).length =
      [entryGood, entrySkip].length -
        [entryGood, entrySkip].countP (fun e => isSkip (vGenerateQuiz "img" e)) :=
  c3_vision_skip_and_batch "img" [entryGood, entrySkip] (by decide)

/-- Reading every position of a list in order reproduces the list. -/
theorem map_getD_range (l : List String) (d : String) :
    (List.range l.length).map (fun i => l.getD i d) = l := by
  induction l with
  | nil => rfl
  | cons a t ih =>
    rw [List.length_cons, List.range_succ_eq_map, List.map_cons, List.map_map]
    have hcomp : ((fun i => (a :: t).getD i d) ∘ Nat.succ) = (fun i => t.getD i d) := by
      funext i
      simp
    rw [List.getD_cons_zero, hcomp, ih]

/-- A duplicate-free list of `n` positions below `n` is a permutation of
`range n`. -/
theorem ord_perm_range (n : Nat) (ord : List Nat) (hnd : ord.Nodup)
    (hlen : ord.length = n) (hlt : ∀ i ∈ ord, i < n) : List.Perm ord (List.range n) := by
  have hsub : ord ⊆ List.range n := fun i hi => List.mem_range.mpr (hlt i hi)
  exact (hnd.subperm hsub).perm_of_length_le (by simp [List.length_range, hlen])

/-- Shuffling permutes the input, whatever the oracle. -/
theorem randomShuffle_perm (l : List String) (ord : List Nat) :
    List.Perm (randomShuffle l ord) l := by
  unfold randomShuffle
  split
  next h =>
    have hp : List.Perm ord (List.range l.length) := ord_perm_range l.length ord h.1 h.2.1 h.2.2
    have hmap := hp.map (fun i => l.getD i "")
    rwa [map_getD_range] at hmap
  next => exact List.Perm.refl l

/-- The labels are one per option. -/
theorem labelsFor_length (k : Nat) : (labelsFor k).length = k := by
  unfold labelsFor
  rw [List.length_map, List.length_range]

/-- Below the surrogate range, `Char.ofNat` is left-inverted by `Char.toNat`. -/
theorem char_toNat_ofNat {m : Nat} (h : m < 55296) : (Char.ofNat m).toNat = m := by
  unfold Char.ofNat
  rw [dif_pos (Or.inl h)]
  rfl

/-- The contiguous label sequence `A, B, C, ...` has no repeats. -/
theorem labelsFor_nodup (k : Nat) (hk : k + 65 ≤ 55296) : (labelsFor k).Nodup := by
  unfold labelsFor
  refine List.Nodup.map_on ?_ (List.nodup_range k)
  intro i hi j hj hij
  have hi' : 65 + i < 55296 := by
    have := List.mem_range.mp hi
    omega
  have hj' : 65 + j < 55296 := by
    have := List.mem_range.mp hj
    omega
  have htn := congrArg Char.toNat hij
  rw [char_toNat_ofNat hi', char_toNat_ofNat hj'] at htn
  omega

/-- When exactly one pair carries the sought text, the first-match label
lookup returns the label of that unique pair. -/
theorem correctLabel_zip_spec (t : String) :
    ∀ z : List (Char × String), (z.map Prod.snd).count t = 1 →
      ∃ key, correctLabel z t = some key ∧ (key, t) ∈ z ∧
        ∀ p ∈ z, p.2 = t → p.1 = key := by
  intro z
  induction z with
  | nil => intro h; simp at h
  | cons a rest ih =>
    intro h
    by_cases ha : a.2 = t
    · have hrest : (rest.map Prod.snd).count t = 0 := by
        rw [List.map_cons, List.count_cons] at h
        simp [ha] at h
        omega
      have hnotmem : ∀ p ∈ rest, p.2 ≠ t := by
        intro p hp hpt
        have : t ∈ rest.map Prod.snd := List.mem_map.mpr ⟨p, hp, hpt⟩
        exact (List.count_eq_zero.mp hrest) this
      refine ⟨a.1, ?_, ?_, ?_⟩
      · unfold correctLabel
        rw [List.filter_cons_of_pos (by simpa using ha)]
        rfl
      · have haa : a = (a.1, t) := by
          cases a
          simpa using ha
        rw [← haa]
        exact List.mem_cons_self a rest
      · rintro p hp hpt
        rcases List.mem_cons.mp hp with rfl | hmem
        · rfl
        · exact absurd hpt (hnotmem p hmem)
    · have h' : (rest.map Prod.snd).count t = 1 := by
        rw [List.map_cons, List.count_cons] at h
        simpa [ha] using h
      obtain ⟨key, h1, h2, h3⟩ := ih h'
      refine ⟨key, ?_, List.mem_cons_of_mem a h2, ?_⟩
      · unfold correctLabel at h1 ⊢
        rw [List.filter_cons_of_neg (by simpa using ha)]
        exact h1
      · rintro p hp hpt
        rcases List.mem_cons.mp hp with rfl | hmem
        · exact absurd hpt ha
        · exact h3 p hmem hpt

/-- C1: with enough eligible distractors, `generate_quiz` always returns a
record whose labels are exactly the contiguous `A..` sequence of length
`num_distractors + 1` with no repeats, whose option texts contain the
correct answer exactly once, and whose answer key is the label paired with
that unique option.  (`hsize` keeps the label codepoints below the surrogate
range, where `chr` is injective in Python as well.) -/
theorem c1_standard_record_invariants (template ck loanword correct : String)
    (data : List (String × String)) (n : Nat) (idxs ord : List Nat)
    (hn : n ≤ (distractorPool data correct).length) (hsize : n + 66 ≤ 55296) :
    ∃ r, generate_quiz template ck loanword correct data n idxs ord = .ok r ∧
      r.options.label = labelsFor (n + 1) ∧
      (labelsFor (n + 1)).Nodup ∧
      r.options.text.length = n + 1 ∧
      r.options.text.count correct = 1 ∧
      r.answer.text = correct ∧
      (r.answer.key, correct) ∈ r.options.label.zip r.options.text ∧
      ∀ p ∈ r.options.label.zip r.options.text, p.2 = correct → p.1 = r.answer.key := by
  have hgd : get_distractors data correct n idxs =
      some ((selectIdxs (distractorPool data correct).length n idxs).map
        (fun i => (distractorPool data correct).getD i "")) := by
    unfold get_distractors randomSample
    rw [if_pos hn]
  set ds := (selectIdxs (distractorPool data correct).length n idxs).map
    (fun i => (distractorPool data correct).getD i "") with hds
  obtain ⟨hsel_nd, hsel_len, hsel_lt⟩ :=
    selectIdxs_spec (distractorPool data correct).length n idxs hn
  have hds_len : ds.length = n := by
    rw [hds, List.length_map, hsel_len]
  have hds_ne : ∀ x ∈ ds, x ≠ correct := by
    intro x hx
    rw [hds] at hx
    obtain ⟨i, hi, rfl⟩ := List.mem_map.mp hx
    exact mem_distractorPool_ne data correct _ (getD_mem_of_lt (hsel_lt i hi) "")
  set opts := randomShuffle (ds ++ [correct]) ord with hopts
  have hperm : List.Perm opts (ds ++ [correct]) := randomShuffle_perm _ _
  have hlen : opts.length = n + 1 := by
    rw [hperm.length_eq, List.length_append, hds_len]
    rfl
  have hcount : opts.count correct = 1 := by
    rw [hperm.count_eq, List.count_append]
    have h0 : ds.count correct = 0 :=
      List.count_eq_zero.mpr (fun hmem => hds_ne correct hmem rfl)
    rw [h0]
    simp
  have hsnd : ((labelsFor opts.length).zip opts).map Prod.snd = opts :=
    List.map_snd_zip _ _ (le_of_eq (labelsFor_length opts.length).symm)
  have hmap_count : (((labelsFor opts.length).zip opts).map Prod.snd).count correct = 1 := by
    rw [hsnd]
    exact hcount
  obtain ⟨key, hkey, hmem, huniq⟩ :=
    correctLabel_zip_spec correct ((labelsFor opts.length).zip opts) hmap_count
  refine ⟨{ question := questionFromTemplate template ck loanword
            options := { text := opts, label := labelsFor opts.length }
            answer := { text := correct, key := key } }, ?_, ?_,
    labelsFor_nodup (n + 1) (by omega), hlen, hcount, rfl, hmem, huniq⟩
  · unfold generate_quiz
    rw [hgd]
    show generateQuizWith template ck loanword correct opts = _
    unfold generateQuizWith
    simp only [hkey]
  · show labelsFor opts.length = labelsFor (n + 1)
    rw [hlen]

/-- Witness for C1 at a concrete three-pair table with two distractors. -/
theorem c1_witness :
    ∃ r, generate_quiz "Q LOANWORD?" "LOANWORD" "w" "c"
        [("a", "p"), ("b", "q"), ("e", "r")] 2 [0, 1] [2, 0, 1] = .ok r ∧
      r.options.label = labelsFor (2 + 1) ∧
      (labelsFor (2 + 1)).Nodup ∧
      r.options.text.length = 2 + 1 ∧
      r.options.text.count "c" = 1 ∧
      r.answer.text = "c" ∧
      (r.answer.key, "c") ∈ r.options.label.zip r.options.text ∧
      ∀ p ∈ r.options.label.zip r.options.text, p.2 = "c" → p.1 = r.answer.key :=
  c1_standard_record_invariants "Q LOANWORD?" "LOANWORD" "w" "c"
    [("a", "p"), ("b", "q"), ("e", "r")] 2 [0, 1] [2, 0, 1] (by decide) (by decide)

end MakeData
